import Mathlib

set_option autoImplicit false

/-!
Verification of the task-management backend (FastAPI + SQLModel todo service).

This development shallowly embeds the parts of the backend that the checked
properties concern:

* `src/backend/src/core/security.py`: password verification (bcrypt wrapper),
  email/username regex validation, JWT issuance / verification / user-id
  extraction (PyJWT modelled per its current, >= 2.10 behaviour, which also
  validates that a present `sub` claim is a string before returning the
  payload).
* `src/backend/src/schemas/task.py`: `TaskCreate` / `TaskUpdate` pydantic
  validation, including the distinction between an unset field and an
  explicit JSON null under `model_dump(exclude_unset=True)`.
* `src/backend/src/api/routes/tasks.py`: the per-user task CRUD handlers,
  modelled as pure functions over an explicit list of task rows.
* `src/backend/src/api/routes/auth.py`: the login handler.

Machine integers do not occur; Python integers and timestamps are embedded as
`Nat` (timestamps in seconds), Python UUID values as natural numbers below
`2 ^ 128` together with their canonical dashed hexadecimal string form.
-/

namespace TodoApi

/-! ### Python string helpers -/

/-- Characters stripped by the Python `str.strip()` default whitespace set
(ASCII part: space, tab, newline, carriage return, vertical tab, form feed). -/
def isPySpace (c : Char) : Bool :=
  c = ' ' || c = '\t' || c = '\n' || c = '\r' || c = '\x0b' || c = '\x0c'

/-- Python `s.strip()` on the default whitespace set. -/
def pyStrip (s : String) : String :=
  String.mk (((s.toList.dropWhile isPySpace).reverse.dropWhile isPySpace).reverse)

/-- Python `s.lower()` (ASCII fragment, which covers the stored emails). -/
def pyLower (s : String) : String :=
  String.mk (s.toList.map Char.toLower)

/-! ### UUID values and their string form

Python `uuid.UUID` holds a 128-bit integer.  `str(u)` prints 32 lowercase
hexadecimal digits with dashes in the 8-4-4-4-12 pattern; the constructor
`UUID(hex)` strips surrounding braces, removes all dashes, requires exactly 32
hexadecimal digits and parses them (the rarely used `urn:uuid:` prefix form is
not modelled). -/

/-- Lowercase hexadecimal digit for `d < 16`, as printed by Python `%x`. -/
def hexChar (d : Nat) : Char :=
  if d < 10 then Char.ofNat (48 + d) else Char.ofNat (87 + d)

/-- Value of a hexadecimal digit character, accepting both cases. -/
def hexVal? (c : Char) : Option Nat :=
  if '0' ≤ c ∧ c ≤ '9' then some (c.toNat - 48)
  else if 'a' ≤ c ∧ c ≤ 'f' then some (c.toNat - 87)
  else if 'A' ≤ c ∧ c ≤ 'F' then some (c.toNat - 55)
  else none

/-- Whether a character is a hexadecimal digit. -/
def isHexDigitChar (c : Char) : Bool :=
  (hexVal? c).isSome

/-- The `k` hexadecimal digits of `n` (most significant first), as printed by
the Python format `%0kx` for `n < 16 ^ k`. -/
def toHexDigits : Nat → Nat → List Char
  | 0, _ => []
  | k + 1, n => hexChar (n / 16 ^ k) :: toHexDigits k (n % 16 ^ k)

/-- Numeric value of a list of hexadecimal digit characters (Python
`int(hex, 16)` on an already validated digit string). -/
def hexToNat (cs : List Char) : Nat :=
  cs.foldl (fun a c => 16 * a + (hexVal? c).getD 0) 0

/-- An opening or closing curly brace. -/
def isBrace (c : Char) : Bool :=
  c = Char.ofNat 123 || c = Char.ofNat 125

/-- Python `hex.strip(chars)` for the brace character set. -/
def pyStripBraces (cs : List Char) : List Char :=
  ((cs.dropWhile isBrace).reverse.dropWhile isBrace).reverse

/-- The 32 hexadecimal digits of a UUID value. -/
def uuidHex (n : Nat) : List Char :=
  toHexDigits 32 n

/-- Python `str(uuid)`: 8-4-4-4-12 dashed lowercase hexadecimal form. -/
def uuidToString (n : Nat) : String :=
  let h := uuidHex n
  String.mk (h.take 8 ++ '-' ::
    ((h.drop 8).take 4 ++ '-' ::
      ((h.drop 12).take 4 ++ '-' ::
        ((h.drop 16).take 4 ++ '-' :: h.drop 20))))

/-- Python `uuid.UUID(s)`: strip surrounding braces, drop dashes, require 32
hexadecimal digits; `none` models the raised `ValueError`. -/
def uuidFromString (s : String) : Option Nat :=
  let cs := (pyStripBraces s.toList).filter (fun c => c ≠ '-')
  if cs.length = 32 ∧ cs.all isHexDigitChar then some (hexToNat cs) else none

/-! ### Settings (`src/backend/src/core/config.py`) -/

/-- The JWT-relevant application settings.  `JWT_ALGORITHM` defaults to HS256
and `JWT_EXPIRATION_HOURS` to 24, as in `Settings`. -/
structure Settings where
  JWT_SECRET : String
  JWT_ALGORITHM : String := "HS256"
  JWT_EXPIRATION_HOURS : Nat := 24

/-! ### JWT model (PyJWT as used by `core/security.py`)

A decoded JSON claim value; only enough structure to distinguish a string
`sub` claim from a non-string one. -/

/-- A JSON value appearing as a JWT claim. -/
inductive JVal
  | str (s : String)
  | num (n : Int)
  | boolean (b : Bool)
  | null
deriving DecidableEq, Repr

/-- The JWT payload claims used by the application.  Arbitrary inbound tokens
may lack any of them, hence every claim is optional. -/
structure JwtPayload where
  sub : Option JVal
  email : Option String
  exp : Option Nat
  iat : Option Nat
deriving DecidableEq, Repr

/-- A JWT as seen by the verifier: either a token whose signature was formed
with some key and algorithm over a payload, or a string that does not parse
as a JWT at all. -/
inductive JwtToken
  | signed (payload : JwtPayload) (key : String) (alg : String)
  | malformed (raw : String)
deriving DecidableEq, Repr

/-- `jwt.encode(payload, key, algorithm)`. -/
def jwtEncode (payload : JwtPayload) (key : String) (alg : String) : JwtToken :=
  .signed payload key alg

/-- Whether a present `sub` claim is a string.  PyJWT (>= 2.10) raises
`InvalidSubjectError`, a subclass of `InvalidTokenError`, for a present
non-string `sub` claim during `jwt.decode`. -/
def subClaimOk : Option JVal → Bool
  | none => true
  | some (JVal.str _) => true
  | some _ => false

/-- Whether a present `exp` claim still lies strictly in the future at time
`now`.  PyJWT (>= 2.6) raises `ExpiredSignatureError` with zero leeway when
`exp <= now`: the token is already invalid on the exact second it expires. -/
def expClaimOk (exp : Option Nat) (now : Nat) : Bool :=
  match exp with
  | some e => now < e
  | none => true

/-- `jwt.decode(token, key, algorithms)` at time `now`: the signature key and
algorithm must match, a present `exp` claim must lie strictly in the future,
and a present `sub` claim must be a string; `none` models every raised
`InvalidTokenError`. -/
def jwtDecode (tok : JwtToken) (key : String) (algs : List String) (now : Nat) :
    Option JwtPayload :=
  match tok with
  | .malformed _ => none
  | .signed p k alg =>
    if k = key ∧ alg ∈ algs ∧ expClaimOk p.exp now = true ∧ subClaimOk p.sub = true then
      some p
    else
      none

/-- `create_access_token(user_id, email)` issued at time `now`: claims
`sub = str(user_id)`, `email`, `exp = now + JWT_EXPIRATION_HOURS` (in hours)
and `iat = now`, signed with the configured secret and algorithm. -/
def create_access_token (s : Settings) (now : Nat) (user_id : Nat) (email : String) :
    JwtToken :=
  jwtEncode
    { sub := some (.str (uuidToString user_id))
      email := some email
      exp := some (now + s.JWT_EXPIRATION_HOURS * 3600)
      iat := some now }
    s.JWT_SECRET s.JWT_ALGORITHM

/-- `verify_access_token(token)` at time `now`: decode with the configured
secret and algorithm list, returning `none` on expiry or any invalid token. -/
def verify_access_token (s : Settings) (now : Nat) (token : JwtToken) :
    Option JwtPayload :=
  jwtDecode token s.JWT_SECRET [s.JWT_ALGORITHM] now

/-- `extract_user_id_from_token(token)`: verify, then `UUID(payload["sub"])`
with `KeyError` (claim absent) and `ValueError` (unparsable) caught and
mapped to `none`.  The `Except.error` branch records the one uncaught Python
exception that `UUID` would raise on a non-string argument; the verifier
never lets such a payload through. -/
def extract_user_id_from_token (s : Settings) (now : Nat) (token : JwtToken) :
    Except String (Option Nat) :=
  match verify_access_token s now token with
  | none => .ok none
  | some payload =>
    match payload.sub with
    | none => .ok none
    | some (JVal.str st) => .ok (uuidFromString st)
    | some _ => .error "TypeError: UUID argument must be a string"

/-! ### bcrypt wrapper (`verify_password`)

The bcrypt primitive itself lives outside the repository; it is embedded as
an abstract `checkpw` that either returns a boolean or raises (for a
malformed stored hash bcrypt raises `ValueError: invalid salt`). -/

/-- The bcrypt library surface used by `verify_password`: `checkpw` returns a
result or raises, the raised message carried in `Except.error`. -/
structure BcryptLib where
  checkpw : String → String → Except String Bool

/-- `verify_password(password, password_hash)`: delegate to `bcrypt.checkpw`
and map every raised exception to `False`. -/
def verify_password (bc : BcryptLib) (password password_hash : String) : Bool :=
  match bc.checkpw password password_hash with
  | .ok b => b
  | .error _ => false

/-! ### User rows and the login handler (`api/routes/auth.py`) -/

/-- A row of the `users` table (the fields the login flow reads). -/
structure User where
  id : Nat
  email : String
  username : String
  password_hash : String
  created_at : Nat
deriving DecidableEq, Repr

/-- The login query: first user whose lowercased email equals the lowercased
request email (`func.lower(User.email) == request.email.lower()` under
`scalar_one_or_none`, at most one row by the case-insensitive uniqueness of
emails). -/
def find_user_by_email (db : List User) (email : String) : Option User :=
  db.find? (fun u => pyLower u.email == pyLower email)

/-- Outcome of the login handler: a 200 body or an `HTTPException`. -/
inductive LoginResult
  | ok (access_token : JwtToken) (token_type : String) (user_id : Nat)
      (email username : String) (created_at : Nat)
  | httpError (status : Nat) (detail : String)
deriving DecidableEq, Repr

/-- The `login` handler: look the user up by case-insensitive email, answer
401 when absent, verify the password, answer the same 401 on mismatch,
otherwise issue a token and return it with the public profile. -/
def login (bc : BcryptLib) (s : Settings) (now : Nat) (db : List User)
    (req_email req_password : String) : LoginResult :=
  match find_user_by_email db req_email with
  | none => .httpError 401 "Invalid email or password"
  | some user =>
    if verify_password bc req_password user.password_hash then
      .ok (create_access_token s now user.id user.email) "bearer"
        user.id user.email user.username user.created_at
    else
      .httpError 401 "Invalid email or password"

/-! ### Regex validators (`EMAIL_REGEX`, `USERNAME_REGEX`)

`validate_email` runs `re.match` of
`^[A-Za-z0-9._%+-]+@[A-Za-z0-9.-]+\.[A-Z|a-z]{2,}$` (note the literal `|`
inside the final character class) and `validate_username` runs `re.match` of
`^[a-zA-Z0-9_]{3,30}$`.  Two Python `re` facts matter: `match` anchors only
at the start (the pattern ends in `$`, so that changes nothing here), and
`$` also matches just before one newline at the end of the string. -/

/-- The class `[A-Za-z0-9._%+-]` of the local part. -/
def emailLocalChar (c : Char) : Bool :=
  c.isAlphanum || c = '.' || c = '_' || c = '%' || c = '+' || c = '-'

/-- The class `[A-Za-z0-9.-]` of the domain part. -/
def emailDomainChar (c : Char) : Bool :=
  c.isAlphanum || c = '.' || c = '-'

/-- The class `[A-Z|a-z]` of the code regex TLD part: letters and the literal
bar character. -/
def emailTldChar (c : Char) : Bool :=
  c.isAlpha || c = '|'

/-- The class `[A-Za-z]` written in the specification for the TLD part. -/
def specEmailTldChar (c : Char) : Bool :=
  c.isAlpha

/-- All decompositions of a list into a prefix and a suffix. -/
def splitsAt (cs : List Char) : List (List Char × List Char) :=
  (List.range (cs.length + 1)).map (fun i => (cs.take i, cs.drop i))

/-- Executable matcher for `local+ @ domain+ . tld{2,}` against a whole
character list, with the TLD class a parameter. -/
def emailCoreMatch (tld : Char → Bool) (cs : List Char) : Bool :=
  (splitsAt cs).any (fun lr =>
    (!lr.1.isEmpty) && lr.1.all emailLocalChar &&
    (match lr.2 with
     | c :: r2 =>
       (c == '@') &&
       (splitsAt r2).any (fun dr =>
         (!dr.1.isEmpty) && dr.1.all emailDomainChar &&
         (match dr.2 with
          | c2 :: t => (c2 == '.') && decide (2 ≤ t.length) && t.all tld
          | [] => false))
     | [] => false))

/-- Declarative reading of the same pattern: some decomposition into a
nonempty local part, `@`, a nonempty domain part, a literal dot and at least
two TLD characters. -/
def EmailCoreMatches (tld : Char → Bool) (cs : List Char) : Prop :=
  ∃ l d t, cs = l ++ '@' :: (d ++ '.' :: t) ∧
    l ≠ [] ∧ l.all emailLocalChar = true ∧
    d ≠ [] ∧ d.all emailDomainChar = true ∧
    2 ≤ t.length ∧ t.all tld = true

/-- Executable matcher for `[a-zA-Z0-9_]{3,30}` against a whole list. -/
def usernameCoreMatch (cs : List Char) : Bool :=
  decide (3 ≤ cs.length) && decide (cs.length ≤ 30) && cs.all (fun c => c.isAlphanum || c = '_')

/-- Python `re.match` of an all-anchored pattern `^core$`: the core must
match the whole string, or the whole string minus a single trailing
newline. -/
def pyRegexMatch (core : List Char → Bool) (s : String) : Bool :=
  core s.toList ||
    (match s.toList.getLast? with
     | some c => c = '\n' && core s.toList.dropLast
     | none => false)

/-- `validate_email(email)`: `bool(EMAIL_REGEX.match(email))`. -/
def validate_email (email : String) : Bool :=
  pyRegexMatch (emailCoreMatch emailTldChar) email

/-- `validate_username(username)`: `bool(USERNAME_REGEX.match(username))`. -/
def validate_username (username : String) : Bool :=
  pyRegexMatch usernameCoreMatch username

/-! ### Task rows (`models/task.py`) -/

/-- A row of the `tasks` table.  `title` is a NOT NULL column; `description`
is nullable; timestamps are UTC seconds. -/
structure Task where
  id : Nat
  user_id : Nat
  title : String
  description : Option String
  completed : Bool
  created_at : Nat
  updated_at : Nat
deriving DecidableEq, Repr

/-! ### Request schemas (`schemas/task.py`)

`TaskUpdate` distinguishes a field absent from the request body (unset) from
a field explicitly set to JSON null: `model_dump(exclude_unset=True)` keeps
an explicit null.  The outer `Option` below is unset/set, the inner one the
nullable value. -/

/-- The parsed `TaskUpdate` body: only `title` and `description` exist. -/
structure TaskUpdate where
  title : Option (Option String) := none
  description : Option (Option String) := none
deriving DecidableEq, Repr

/-- The parsed `TaskCreate` body. -/
structure TaskCreate where
  title : String
  description : Option String := none
  completed : Option Bool := some false
deriving DecidableEq, Repr

/-- A JSON request body, as the list of its top-level key/value pairs. -/
def JsonBody := List (String × JVal)

/-- First value bound to a key in a JSON body. -/
def lookupKey (body : JsonBody) (k : String) : Option JVal :=
  (List.find? (fun p => p.fst == k) body).map Prod.snd

/-- Validation of the `TaskCreate.title` field: pydantic `min_length=1` /
`max_length=200` (on the raw string) followed by the `title_not_empty`
validator, which rejects an empty or whitespace-only string. -/
def validateCreateTitle (v : Option JVal) : Except String String :=
  match v with
  | none => .error "Field required"
  | some (JVal.str s) =>
    if s.length < 1 then .error "String should have at least 1 character"
    else if 200 < s.length then .error "String should have at most 200 characters"
    else if pyStrip s = "" then .error "Title cannot be empty or whitespace-only"
    else .ok s
  | some _ => .error "Input should be a valid string"

/-- Validation of `TaskUpdate.title`: the field may be unset, or an explicit
null (the validator only checks a non-`None` value), or a string satisfying
the same length and non-whitespace rules as on creation. -/
def validateUpdateTitle (v : Option JVal) : Except String (Option (Option String)) :=
  match v with
  | none => .ok none
  | some JVal.null => .ok (some none)
  | some (JVal.str s) =>
    if s.length < 1 then .error "String should have at least 1 character"
    else if 200 < s.length then .error "String should have at most 200 characters"
    else if pyStrip s = "" then .error "Title cannot be empty or whitespace-only"
    else .ok (some (some s))
  | some _ => .error "Input should be a valid string"

/-- Validation of a nullable description bounded by `max_length=2000`. -/
def validateDescription (v : Option JVal) : Except String (Option (Option String)) :=
  match v with
  | none => .ok none
  | some JVal.null => .ok (some none)
  | some (JVal.str s) =>
    if 2000 < s.length then .error "String should have at most 2000 characters"
    else .ok (some (some s))
  | some _ => .error "Input should be a valid string"

/-- Validation of the optional boolean `completed` field of `TaskCreate`. -/
def validateCompleted (v : Option JVal) : Except String (Option Bool) :=
  match v with
  | none => .ok (some false)
  | some JVal.null => .ok none
  | some (JVal.boolean b) => .ok (some b)
  | some _ => .error "Input should be a valid boolean"

/-- `TaskUpdate.model_validate(body)`: read `title` and `description`, ignore
every other key (pydantic default `extra=ignore`). -/
def parseTaskUpdate (body : JsonBody) : Except String TaskUpdate :=
  match validateUpdateTitle (lookupKey body "title"),
      validateDescription (lookupKey body "description") with
  | .ok t, .ok d => .ok { title := t, description := d }
  | .error e, _ => .error e
  | _, .error e => .error e

/-- `TaskCreate.model_validate(body)`: `title` required, `description` and
`completed` optional, every other key ignored. -/
def parseTaskCreate (body : JsonBody) : Except String TaskCreate :=
  match validateCreateTitle (lookupKey body "title"),
      validateDescription (lookupKey body "description"),
      validateCompleted (lookupKey body "completed") with
  | .ok t, .ok d, .ok c =>
    .ok { title := t, description := (d.getD none), completed := c }
  | .error e, _, _ => .error e
  | _, .error e, _ => .error e
  | _, _, .error e => .error e

/-! ### Task handlers (`api/routes/tasks.py`)

Every protected handler looks its task up with the compound predicate
`Task.id == task_id, Task.user_id == current_user.id` under
`scalar_one_or_none` and raises `TaskNotFoundError(str(task_id))` when the
result is absent. -/

/-- The compound-key lookup shared by get / update / delete / toggle. -/
def find_task (db : List Task) (task_id user_id : Nat) : Option Task :=
  db.find? (fun t => t.id == task_id && t.user_id == user_id)

/-- Outcome of a task handler: a 200 body, the 404 `TaskNotFoundError`
carrying the requested id, or the 500 `DatabaseError` with its message. -/
inductive ApiResult (α : Type)
  | ok (value : α)
  | notFound (task_id : Nat)
  | dbError (detail : String)
deriving DecidableEq, Repr

/-- `GET /tasks/{task_id}`. -/
def get_task (db : List Task) (current_user task_id : Nat) : ApiResult Task :=
  match find_task db task_id current_user with
  | none => .notFound task_id
  | some t => .ok t

/-- The in-row effect of `update_task` on a found row: assign each field
present in `model_dump(exclude_unset=True)` and refresh `updated_at`.
Assigning an explicit null to `title` violates the NOT NULL column on
commit, which raises through the `SQLAlchemyError` branch; that failed
commit is the `none` result. -/
def applyTaskUpdate (t : Task) (b : TaskUpdate) (now : Nat) : Option Task :=
  let newTitle : Option String :=
    match b.title with
    | none => some t.title
    | some v => v
  let newDescription : Option String :=
    match b.description with
    | none => t.description
    | some v => v
  match newTitle with
  | none => none
  | some ti =>
    some { t with title := ti, description := newDescription, updated_at := now }

/-- Replace the looked-up row inside the table. -/
def storeTask (db : List Task) (t' : Task) : List Task :=
  db.map (fun x => if x.id == t'.id && x.user_id == t'.user_id then t' else x)

/-- `PATCH /tasks/{task_id}` on an already validated body: compound-key
lookup, 404 when absent, otherwise apply the partial update and commit (a
commit rejected by the NOT NULL constraint rolls back and answers 500). -/
def update_task (db : List Task) (current_user task_id : Nat) (b : TaskUpdate)
    (now : Nat) : ApiResult Task × List Task :=
  match find_task db task_id current_user with
  | none => (.notFound task_id, db)
  | some t =>
    match applyTaskUpdate t b now with
    | none => (.dbError "Failed to update task in database", db)
    | some t' => (.ok t', storeTask db t')

/-- `DELETE /tasks/{task_id}`: compound-key lookup, 404 when absent,
otherwise remove the row (unique by the primary key) and answer 204. -/
def delete_task (db : List Task) (current_user task_id : Nat) :
    ApiResult Unit × List Task :=
  match find_task db task_id current_user with
  | none => (.notFound task_id, db)
  | some _ =>
    (.ok (), db.filter (fun t => !(t.id == task_id && t.user_id == current_user)))

/-- The in-row effect of the toggle handler on a found row: flip `completed`
and refresh `updated_at`. -/
def toggleTask (t : Task) (now : Nat) : Task :=
  { t with completed := !t.completed, updated_at := now }

/-- `POST /tasks/{task_id}/toggle`: compound-key lookup, 404 when absent,
otherwise flip and commit. -/
def toggle_task_completion (db : List Task) (current_user task_id : Nat)
    (now : Nat) : ApiResult Task × List Task :=
  match find_task db task_id current_user with
  | none => (.notFound task_id, db)
  | some t => (.ok (toggleTask t now), storeTask db (toggleTask t now))

/-! ### Shared lemmas -/

/-- The compound-key lookup answers absence exactly when no row carries both
the requested id and the requesting owner. -/
theorem find_task_eq_none_iff (db : List Task) (tid uid : Nat) :
    find_task db tid uid = none ↔ ∀ t ∈ db, ¬(t.id = tid ∧ t.user_id = uid) := by
  simp [find_task, List.find?_eq_none]

/-- The partial update preserves `id`, `user_id`, `completed` and
`created_at` whenever the commit succeeds. -/
theorem applyTaskUpdate_frame (t : Task) (b : TaskUpdate) (now : Nat) (t' : Task)
    (happly : applyTaskUpdate t b now = some t') :
    t'.id = t.id ∧ t'.user_id = t.user_id ∧ t'.completed = t.completed ∧
      t'.created_at = t.created_at ∧ t'.updated_at = now := by
  rcases hb : b.title with _ | v <;>
    simp only [applyTaskUpdate, hb] at happly
  · cases happly
    simp
  · rcases v with _ | st
    · cases happly
    · cases happly
      simp

/-! ### UUID string round trip -/

/-- Hexadecimal digit characters decode to their value. -/
theorem hexVal?_hexChar (d : Nat) (hd : d < 16) : hexVal? (hexChar d) = some d := by
  interval_cases d <;> decide

/-- Hexadecimal digit characters are recognised, are not dashes and are not
braces. -/
theorem hexChar_props (d : Nat) (hd : d < 16) :
    isHexDigitChar (hexChar d) = true ∧ hexChar d ≠ '-' ∧ isBrace (hexChar d) = false := by
  interval_cases d <;> decide

/-- `toHexDigits k` always produces `k` characters. -/
theorem toHexDigits_length (k : Nat) : ∀ n, (toHexDigits k n).length = k := by
  induction k with
  | zero => intro n; rfl
  | succ k ih => intro n; simp [toHexDigits, ih]

/-- Every character of `toHexDigits k n` is a digit character for `n` below
`16 ^ k`. -/
theorem mem_toHexDigits (k : Nat) : ∀ n, n < 16 ^ k →
    ∀ c ∈ toHexDigits k n, ∃ d, d < 16 ∧ c = hexChar d := by
  induction k with
  | zero => intro n _ c hc; simp [toHexDigits] at hc
  | succ k ih =>
    intro n hn c hc
    have hdiv : n / 16 ^ k < 16 :=
      Nat.div_lt_of_lt_mul (by rw [← pow_succ]; exact hn)
    simp only [toHexDigits, List.mem_cons] at hc
    rcases hc with hc | hc
    · exact ⟨n / 16 ^ k, hdiv, hc⟩
    · exact ih (n % 16 ^ k) (Nat.mod_lt _ (Nat.pos_pow_of_pos k (by norm_num))) c hc

/-- Folding the digits of `n` back into a number recovers `n` (with an
arbitrary accumulator). -/
theorem foldl_toHexDigits (k : Nat) : ∀ n a, n < 16 ^ k →
    (toHexDigits k n).foldl (fun a c => 16 * a + (hexVal? c).getD 0) a =
      a * 16 ^ k + n := by
  induction k with
  | zero =>
    intro n a hn
    interval_cases n
    simp [toHexDigits]
  | succ k ih =>
    intro n a hn
    have hdiv : n / 16 ^ k < 16 :=
      Nat.div_lt_of_lt_mul (by rw [← pow_succ]; exact hn)
    have hmod : n % 16 ^ k < 16 ^ k := Nat.mod_lt _ (Nat.pos_pow_of_pos k (by norm_num))
    simp only [toHexDigits, List.foldl_cons, hexVal?_hexChar _ hdiv, Option.getD_some]
    rw [ih (n % 16 ^ k) _ hmod]
    conv_rhs => rw [← Nat.div_add_mod n (16 ^ k)]
    ring

/-- `hexToNat` inverts `toHexDigits` below `16 ^ k`. -/
theorem hexToNat_toHexDigits (k n : Nat) (hn : n < 16 ^ k) :
    hexToNat (toHexDigits k n) = n := by
  have := foldl_toHexDigits k n 0 hn
  simpa [hexToNat] using this

/-- `dropWhile` is the identity when no element satisfies the predicate. -/
theorem dropWhile_eq_self_of_forall {p : Char → Bool} (l : List Char)
    (h : ∀ c ∈ l, p c = false) : l.dropWhile p = l := by
  cases l with
  | nil => rfl
  | cons c cs => simp [List.dropWhile_cons, h c (List.mem_cons_self c cs)]

/-- Stripping braces does nothing to a brace-free list. -/
theorem pyStripBraces_eq_self (l : List Char) (h : ∀ c ∈ l, isBrace c = false) :
    pyStripBraces l = l := by
  unfold pyStripBraces
  rw [dropWhile_eq_self_of_forall l h,
    dropWhile_eq_self_of_forall l.reverse (fun c hc => h c (List.mem_reverse.mp hc)),
    List.reverse_reverse]

/-- Parsing the canonical dashed string of a UUID value below `2 ^ 128`
recovers the value: the Python round trip `UUID(str(u)) == u`. -/
theorem uuidFromString_uuidToString (n : Nat) (hn : n < 2 ^ 128) :
    uuidFromString (uuidToString n) = some n := by
  have hn' : n < 16 ^ 32 := by
    calc n < 2 ^ 128 := hn
      _ = 16 ^ 32 := by norm_num
  set h : List Char := uuidHex n with hh
  have hdig : ∀ c ∈ h, ∃ d, d < 16 ∧ c = hexChar d :=
    mem_toHexDigits 32 n hn'
  have hhex : ∀ c ∈ h, isHexDigitChar c = true := by
    intro c hc
    obtain ⟨d, hd, rfl⟩ := hdig c hc
    exact (hexChar_props d hd).1
  have hdash : ∀ c ∈ h, (c != '-') = true := by
    intro c hc
    obtain ⟨d, hd, rfl⟩ := hdig c hc
    simpa using (hexChar_props d hd).2.1
  have hbrace : ∀ c ∈ h, isBrace c = false := by
    intro c hc
    obtain ⟨d, hd, rfl⟩ := hdig c hc
    exact (hexChar_props d hd).2.2
  have hlen : h.length = 32 := toHexDigits_length 32 n
  -- the dashed character list of `str(uuid)`
  set L : List Char := h.take 8 ++ '-' ::
      ((h.drop 8).take 4 ++ '-' ::
        ((h.drop 12).take 4 ++ '-' ::
          ((h.drop 16).take 4 ++ '-' :: h.drop 20))) with hL
  have hmemL : ∀ c ∈ L, c = '-' ∨ c ∈ h := by
    intro c hc
    rw [hL] at hc
    simp only [List.mem_append, List.mem_cons] at hc
    rcases hc with hc | hc | hc | hc | hc | hc | hc | hc | hc
    · exact Or.inr (List.take_subset _ _ hc)
    · exact Or.inl hc
    · exact Or.inr (List.drop_subset _ _ (List.take_subset _ _ hc))
    · exact Or.inl hc
    · exact Or.inr (List.drop_subset _ _ (List.take_subset _ _ hc))
    · exact Or.inl hc
    · exact Or.inr (List.drop_subset _ _ (List.take_subset _ _ hc))
    · exact Or.inl hc
    · exact Or.inr (List.drop_subset _ _ hc)
  have hbraceL : ∀ c ∈ L, isBrace c = false := by
    intro c hc
    rcases hmemL c hc with rfl | hc
    · decide
    · exact hbrace c hc
  -- reassembling the four hex segments
  have h20 : (h.drop 16).take 4 ++ h.drop 20 = h.drop 16 := by
    have := List.take_append_drop 4 (h.drop 16)
    rwa [List.drop_drop] at this
  have h16 : (h.drop 12).take 4 ++ h.drop 16 = h.drop 12 := by
    have := List.take_append_drop 4 (h.drop 12)
    rwa [List.drop_drop] at this
  have h12 : (h.drop 8).take 4 ++ h.drop 12 = h.drop 8 := by
    have := List.take_append_drop 4 (h.drop 8)
    rwa [List.drop_drop] at this
  have h8 : h.take 8 ++ h.drop 8 = h := List.take_append_drop 8 h
  have s1 : (h.take 8).filter (fun c => c != '-') = h.take 8 :=
    List.filter_eq_self.mpr (fun c hc => hdash c (List.take_subset _ _ hc))
  have s2 : ((h.drop 8).take 4).filter (fun c => c != '-') = (h.drop 8).take 4 :=
    List.filter_eq_self.mpr
      (fun c hc => hdash c (List.drop_subset _ _ (List.take_subset _ _ hc)))
  have s3 : ((h.drop 12).take 4).filter (fun c => c != '-') = (h.drop 12).take 4 :=
    List.filter_eq_self.mpr
      (fun c hc => hdash c (List.drop_subset _ _ (List.take_subset _ _ hc)))
  have s4 : ((h.drop 16).take 4).filter (fun c => c != '-') = (h.drop 16).take 4 :=
    List.filter_eq_self.mpr
      (fun c hc => hdash c (List.drop_subset _ _ (List.take_subset _ _ hc)))
  have s5 : (h.drop 20).filter (fun c => c != '-') = h.drop 20 :=
    List.filter_eq_self.mpr (fun c hc => hdash c (List.drop_subset _ _ hc))
  have hfilter : L.filter (fun c => c != '-') = h := by
    rw [hL]
    simp only [List.filter_append, List.filter_cons, bne_self_eq_false,
      Bool.false_eq_true, if_false, s1, s2, s3, s4, s5]
    rw [h20, h16, h12, h8]
  have htol : (uuidToString n).toList = L := by
    rw [uuidToString]
    rfl
  unfold uuidFromString
  rw [htol, pyStripBraces_eq_self L hbraceL]
  have hfilter' : L.filter (fun c => decide ¬(c = '-')) = h := by
    simpa [bne] using hfilter
  rw [hfilter']
  rw [if_pos ⟨hlen, List.all_eq_true.mpr hhex⟩]
  show some (hexToNat (toHexDigits 32 n)) = some n
  rw [hexToNat_toHexDigits 32 n hn']

/-! ### Title validation lemmas -/

/-- Whether a pydantic validation produced a value. -/
def isAccepted {ε α : Type} : Except ε α → Bool
  | .ok _ => true
  | .error _ => false

/-- Whether a string offered as `TaskCreate.title` passes validation. -/
def createTitleAccepted (t : String) : Bool :=
  isAccepted (validateCreateTitle (some (JVal.str t)))

/-- Whether a string offered as `TaskUpdate.title` passes validation. -/
def updateTitleAccepted (t : String) : Bool :=
  isAccepted (validateUpdateTitle (some (JVal.str t)))

/-- A string is distinct from the empty string exactly when it has at least
one character. -/
theorem string_one_le_length_iff (x : String) : 1 ≤ x.length ↔ x ≠ "" := by
  obtain ⟨l⟩ := x
  cases l with
  | nil => decide
  | cons c cs =>
    constructor
    · intro _ h
      have hdata : (c :: cs : List Char) = [] := congrArg String.data h
      cases hdata
    · intro _
      show 1 ≤ (c :: cs).length
      simp

/-- Stripping never lengthens a string. -/
theorem pyStrip_length_le (t : String) : (pyStrip t).length ≤ t.length := by
  obtain ⟨l⟩ := t
  show (((l.dropWhile isPySpace).reverse.dropWhile isPySpace).reverse).length ≤ l.length
  rw [List.length_reverse]
  calc ((l.dropWhile isPySpace).reverse.dropWhile isPySpace).length
      ≤ (l.dropWhile isPySpace).reverse.length := (List.dropWhile_sublist _).length_le
    _ = (l.dropWhile isPySpace).length := List.length_reverse _
    _ ≤ l.length := (List.dropWhile_sublist _).length_le

/-- Acceptance of a title string, characterised for both schemas: within the
raw 200-character bound and nonempty after stripping. -/
theorem title_accepted_iff_aux (t : String) :
    createTitleAccepted t = true ↔ t.length ≤ 200 ∧ 1 ≤ (pyStrip t).length := by
  unfold createTitleAccepted validateCreateTitle
  dsimp only
  rcases Nat.lt_or_ge t.length 1 with h1 | h1
  · rw [if_pos h1]
    simp only [isAccepted, Bool.false_eq_true, false_iff, not_and, not_le]
    intro _
    have := pyStrip_length_le t
    omega
  · rw [if_neg (by omega)]
    rcases Nat.lt_or_ge 200 t.length with h2 | h2
    · rw [if_pos h2]
      simp only [isAccepted, Bool.false_eq_true, false_iff, not_and, not_le]
      omega
    · rw [if_neg (by omega)]
      by_cases h3 : pyStrip t = ""
      · rw [if_pos h3]
        simp only [isAccepted, Bool.false_eq_true, false_iff, not_and, not_le]
        intro _
        rw [h3]
        decide
      · rw [if_neg h3]
        simp only [isAccepted, eq_self_iff_true, true_iff]
        exact ⟨h2, (string_one_le_length_iff (pyStrip t)).mpr h3⟩

/-- The update-schema title validator accepts exactly the same strings as
the create-schema one. -/
theorem updateTitleAccepted_eq_create (t : String) :
    updateTitleAccepted t = createTitleAccepted t := by
  unfold updateTitleAccepted createTitleAccepted validateUpdateTitle validateCreateTitle
  dsimp only
  by_cases h1 : t.length < 1 <;> by_cases h2 : 200 < t.length <;>
    by_cases h3 : pyStrip t = "" <;> simp [h1, h2, h3, isAccepted]

/-! ### Regex matcher lemmas -/

/-- Membership in `splitsAt` is exactly being a two-part decomposition. -/
theorem mem_splitsAt (cs l r : List Char) :
    (l, r) ∈ splitsAt cs ↔ cs = l ++ r := by
  constructor
  · intro h
    simp only [splitsAt, List.mem_map, List.mem_range] at h
    obtain ⟨i, _, heq⟩ := h
    injection heq with h1 h2
    rw [← h1, ← h2]
    exact (List.take_append_drop i cs).symm
  · intro h
    subst h
    simp only [splitsAt, List.mem_map, List.mem_range]
    refine ⟨l.length, ?_, ?_⟩
    · simp [Nat.lt_succ_iff]
    · rw [List.take_left, List.drop_left]

/-- The executable email matcher agrees with the declarative reading of the
pattern `local+ @ domain+ . tld{2,}`. -/
theorem emailCoreMatch_iff (tld : Char → Bool) (cs : List Char) :
    emailCoreMatch tld cs = true ↔ EmailCoreMatches tld cs := by
  unfold emailCoreMatch EmailCoreMatches
  rw [List.any_eq_true]
  constructor
  · rintro ⟨⟨l, r⟩, hmem, hpred⟩
    rw [mem_splitsAt] at hmem
    subst hmem
    simp only [Bool.and_eq_true] at hpred
    obtain ⟨⟨hne, hall⟩, hrest⟩ := hpred
    cases r with
    | nil => simp at hrest
    | cons c r2 =>
      simp only [Bool.and_eq_true, beq_iff_eq] at hrest
      obtain ⟨hc, hany⟩ := hrest
      subst hc
      rw [List.any_eq_true] at hany
      obtain ⟨⟨d, rest⟩, hdmem, hdpred⟩ := hany
      rw [mem_splitsAt] at hdmem
      subst hdmem
      simp only [Bool.and_eq_true] at hdpred
      obtain ⟨⟨hdne, hdall⟩, hdrest⟩ := hdpred
      cases rest with
      | nil => simp at hdrest
      | cons c2 t =>
        simp only [Bool.and_eq_true, beq_iff_eq, decide_eq_true_eq] at hdrest
        obtain ⟨⟨hc2, hlen⟩, ht⟩ := hdrest
        subst hc2
        refine ⟨l, d, t, rfl, ?_, hall, ?_, hdall, hlen, ht⟩
        · intro h
          subst h
          simp at hne
        · intro h
          subst h
          simp at hdne
  · rintro ⟨l, d, t, rfl, hlne, hall, hdne, hdall, hlen, ht⟩
    refine ⟨(l, '@' :: (d ++ '.' :: t)), (mem_splitsAt _ _ _).mpr rfl, ?_⟩
    show ((!l.isEmpty) && l.all emailLocalChar &&
      (('@' == '@') &&
        (splitsAt (d ++ '.' :: t)).any (fun dr =>
          (!dr.1.isEmpty) && dr.1.all emailDomainChar &&
          (match dr.2 with
           | c2 :: t2 => (c2 == '.') && decide (2 ≤ t2.length) && t2.all tld
           | [] => false)))) = true
    simp only [Bool.and_eq_true, beq_self_eq_true, true_and]
    refine ⟨⟨?_, hall⟩, ?_⟩
    · simp [hlne]
    · rw [List.any_eq_true]
      refine ⟨(d, '.' :: t), (mem_splitsAt _ _ _).mpr rfl, ?_⟩
      show ((!d.isEmpty) && d.all emailDomainChar &&
        (('.' == '.') && decide (2 ≤ t.length) && t.all tld)) = true
      simp only [Bool.and_eq_true, beq_self_eq_true, true_and, decide_eq_true_eq]
      exact ⟨⟨by simp [hdne], hdall⟩, hlen, ht⟩

/-- The executable username matcher agrees with its declarative reading. -/
theorem usernameCoreMatch_iff (cs : List Char) :
    usernameCoreMatch cs = true ↔
      3 ≤ cs.length ∧ cs.length ≤ 30 ∧ ∀ c ∈ cs, (c.isAlphanum || c = '_') = true := by
  simp [usernameCoreMatch, List.all_eq_true, and_assoc]

/-- The Python `re.match` wrapper: the anchored core matches the whole
string or the string minus one trailing newline. -/
theorem pyRegexMatch_iff (core : List Char → Bool) (s : String) :
    pyRegexMatch core s = true ↔
      (core s.toList = true ∨
        (s.toList.getLast? = some '\n' ∧ core s.toList.dropLast = true)) := by
  unfold pyRegexMatch
  rcases hlast : s.toList.getLast? with _ | c
  · simp [hlast]
  · simp [hlast]

/-- The specification regex for emails, read as a predicate over the whole
string: TLD characters are letters only. -/
def SpecEmailMatches (e : String) : Prop :=
  EmailCoreMatches specEmailTldChar e.toList

/-- The specification regex for usernames, read as a predicate over the
whole string. -/
def SpecUsernameMatches (u : String) : Prop :=
  3 ≤ u.toList.length ∧ u.toList.length ≤ 30 ∧
    ∀ c ∈ u.toList, (c.isAlphanum || c = '_') = true

/-! ### Concrete witness material -/

/-- A concrete task row. -/
def wTask : Task :=
  { id := 1, user_id := 7, title := "Buy milk", description := none,
    completed := false, created_at := 10, updated_at := 10 }

/-- The row after the witness update. -/
def wTaskUpdated : Task :=
  { id := 1, user_id := 7, title := "Buy bread", description := none,
    completed := false, created_at := 10, updated_at := 20 }

/-- A concrete partial update body setting only the title. -/
def wBody : TaskUpdate :=
  { title := some (some "Buy bread"), description := none }

/-- A concrete JSON request body that also tries to set `completed`. -/
def wJson : JsonBody :=
  [("title", JVal.str "Buy bread"), ("completed", JVal.boolean true)]

/-- A bcrypt stub whose `checkpw` always cleanly answers `False`. -/
def wBcrypt : BcryptLib :=
  ⟨fun _ _ => .ok false⟩

/-- A concrete registered user. -/
def wUser : User :=
  { id := 3, email := "alice@example.com", username := "alice_dev",
    password_hash := "$2b$12$abcdefghijklmnopqrstuv", created_at := 0 }

/-- Concrete application settings. -/
def wSettings : Settings :=
  { JWT_SECRET := "0123456789abcdef0123456789abcdef" }

/-- A 201-character title whose trimmed form has a single character. -/
def wLongTitle : String :=
  String.mk ('a' :: List.replicate 200 ' ')

/-! ### Claim theorems -/

/-- C1: for every authenticated user and task id, the get / update / delete /
toggle handlers answer the not-found error (carrying exactly the requested
id) precisely when no task row has both that id and that owner; a task owned
by someone else is therefore indistinguishable from a task that never
existed. -/
theorem task_ops_not_found_iff (db : List Task) (u tid : Nat) (b : TaskUpdate)
    (now : Nat) :
    (get_task db u tid = ApiResult.notFound tid ↔
      ∀ t ∈ db, ¬(t.id = tid ∧ t.user_id = u)) ∧
    ((update_task db u tid b now).1 = ApiResult.notFound tid ↔
      ∀ t ∈ db, ¬(t.id = tid ∧ t.user_id = u)) ∧
    ((delete_task db u tid).1 = ApiResult.notFound tid ↔
      ∀ t ∈ db, ¬(t.id = tid ∧ t.user_id = u)) ∧
    ((toggle_task_completion db u tid now).1 = ApiResult.notFound tid ↔
      ∀ t ∈ db, ¬(t.id = tid ∧ t.user_id = u)) := by
  rcases hft : find_task db tid u with _ | t
  · have hnone := (find_task_eq_none_iff db tid u).mp hft
    simp only [not_and] at hnone
    refine ⟨?_, ?_, ?_, ?_⟩ <;>
      · simp [get_task, update_task, delete_task, toggle_task_completion, hft]
        exact hnone
  · have hmem : t ∈ db := List.mem_of_find?_eq_some hft
    have hpred := List.find?_some hft
    simp only [find_task, Bool.and_eq_true, beq_iff_eq] at hpred
    refine ⟨?_, ?_, ?_, ?_⟩
    · simp only [get_task, hft]
      simp
      exact ⟨t, hmem, hpred.1, hpred.2⟩
    · rcases happ : applyTaskUpdate t b now with _ | t' <;>
        · simp only [update_task, hft, happ]
          simp
          exact ⟨t, hmem, hpred.1, hpred.2⟩
    · simp only [delete_task, hft]
      simp
      exact ⟨t, hmem, hpred.1, hpred.2⟩
    · simp only [toggle_task_completion, hft]
      simp
      exact ⟨t, hmem, hpred.1, hpred.2⟩

/-- C2: a token issued by `create_access_token` carries exactly the claims
`sub = str(user_id)`, `email`, `iat = now` and `exp = now + 24h` (under the
default 24-hour configuration), and `extract_user_id_from_token` on that
token recovers the original user id whenever verification happens strictly
before the expiry instant (on the exact expiry second the token is already
rejected). -/
theorem extract_user_id_roundtrip (s : Settings) (uid : Nat) (email : String)
    (t0 t1 : Nat) (huid : uid < 2 ^ 128) (hexp : s.JWT_EXPIRATION_HOURS = 24)
    (ht : t1 < t0 + 24 * 3600) :
    extract_user_id_from_token s t1 (create_access_token s t0 uid email) =
      .ok (some uid) ∧
    create_access_token s t0 uid email =
      JwtToken.signed
        { sub := some (JVal.str (uuidToString uid)), email := some email,
          exp := some (t0 + 24 * 3600), iat := some t0 }
        s.JWT_SECRET s.JWT_ALGORITHM := by
  constructor
  · simp [extract_user_id_from_token, verify_access_token, create_access_token,
      jwtEncode, jwtDecode, hexp, expClaimOk, subClaimOk, ht,
      uuidFromString_uuidToString uid huid]
  · simp [create_access_token, jwtEncode, hexp]

/-- Lemma: a payload accepted by `verify_access_token` always carries a
string `sub` claim or none at all (the decoder rejects a present non-string
`sub`). -/
theorem verify_access_token_sub_ok (s : Settings) (now : Nat) (tok : JwtToken)
    (p : JwtPayload) (h : verify_access_token s now tok = some p) :
    subClaimOk p.sub = true := by
  unfold verify_access_token jwtDecode at h
  cases tok with
  | signed pl k alg =>
    dsimp only at h
    by_cases hcond : k = s.JWT_SECRET ∧ alg ∈ [s.JWT_ALGORITHM] ∧
        expClaimOk pl.exp now = true ∧ subClaimOk pl.sub = true
    · rw [if_pos hcond] at h
      cases h
      exact hcond.2.2.2
    · rw [if_neg hcond] at h
      cases h
  | malformed raw => cases h

/-- Lemma: the extraction on a token that fails verification. -/
theorem extract_of_verify_none (s : Settings) (now : Nat) (tok : JwtToken)
    (h : verify_access_token s now tok = none) :
    extract_user_id_from_token s now tok = .ok none := by
  unfold extract_user_id_from_token
  rw [h]

/-- Lemma: the extraction on a token that verifies to payload `p`. -/
theorem extract_of_verify_some (s : Settings) (now : Nat) (tok : JwtToken)
    (p : JwtPayload) (h : verify_access_token s now tok = some p) :
    extract_user_id_from_token s now tok =
      (match p.sub with
       | none => .ok none
       | some (JVal.str st) => .ok (uuidFromString st)
       | some _ => .error "TypeError: UUID argument must be a string") := by
  unfold extract_user_id_from_token
  rw [h]

/-- C4: `extract_user_id_from_token` is total — on every token it returns a
clean result and never propagates an exception — and it yields a user id
only for a token that verifies (signature and expiry) with a string `sub`
claim that parses as a UUID. -/
theorem extract_user_id_total_and_sound (s : Settings) (now : Nat) (tok : JwtToken) :
    (∃ r, extract_user_id_from_token s now tok = .ok r) ∧
    (∀ u, extract_user_id_from_token s now tok = .ok (some u) →
      ∃ p st, verify_access_token s now tok = some p ∧
        p.sub = some (JVal.str st) ∧ uuidFromString st = some u) := by
  constructor
  · rcases hv : verify_access_token s now tok with _ | p
    · exact ⟨none, extract_of_verify_none s now tok hv⟩
    · have hsub := verify_access_token_sub_ok s now tok p hv
      rcases hps : p.sub with _ | jv
      · exact ⟨none, by rw [extract_of_verify_some s now tok p hv, hps]⟩
      · cases jv with
        | str st =>
          exact ⟨uuidFromString st, by rw [extract_of_verify_some s now tok p hv, hps]⟩
        | num m => simp [subClaimOk, hps] at hsub
        | boolean bb => simp [subClaimOk, hps] at hsub
        | null => simp [subClaimOk, hps] at hsub
  · intro u hu
    rcases hv : verify_access_token s now tok with _ | p
    · rw [extract_of_verify_none s now tok hv] at hu
      simp at hu
    · rcases hps : p.sub with _ | jv
      · rw [extract_of_verify_some s now tok p hv, hps] at hu
        simp at hu
      · cases jv with
        | str st =>
          rw [extract_of_verify_some s now tok p hv, hps] at hu
          simp at hu
          exact ⟨p, st, rfl, hps, hu⟩
        | num m =>
          rw [extract_of_verify_some s now tok p hv, hps] at hu
          simp at hu
        | boolean bb =>
          rw [extract_of_verify_some s now tok p hv, hps] at hu
          simp at hu
        | null =>
          rw [extract_of_verify_some s now tok p hv, hps] at hu
          simp at hu

/-- Witness for C2: the documented example id round-trips through a token
issued at time 1000 and verified one second before the expiry instant. -/
theorem extract_user_id_roundtrip_witness :
    0x550e8400e29b41d4a716446655440000 < 2 ^ 128 ∧
    wSettings.JWT_EXPIRATION_HOURS = 24 ∧
    1000 + 24 * 3600 - 1 < 1000 + 24 * 3600 ∧
    extract_user_id_from_token wSettings (1000 + 24 * 3600 - 1)
      (create_access_token wSettings 1000 0x550e8400e29b41d4a716446655440000
        "alice@example.com") = .ok (some 0x550e8400e29b41d4a716446655440000) :=
  ⟨by norm_num, by rfl, by norm_num,
    (extract_user_id_roundtrip wSettings 0x550e8400e29b41d4a716446655440000
      "alice@example.com" 1000 (1000 + 24 * 3600 - 1) (by norm_num) (by rfl)
      (by norm_num)).1⟩

/-- Witness for C4: on a malformed token the extraction cleanly returns the
unauthenticated answer. -/
theorem extract_user_id_total_witness :
    (∃ r, extract_user_id_from_token wSettings 0 (JwtToken.malformed "garbage") =
      .ok r) ∧
    extract_user_id_from_token wSettings 0 (JwtToken.malformed "garbage") = .ok none :=
  ⟨(extract_user_id_total_and_sound wSettings 0 (JwtToken.malformed "garbage")).1, rfl⟩

/-- C3: the login handler produces one and the same 401 error value, with
detail `Invalid email or password`, both when the email matches no account
and when the email matches an account whose password does not verify. -/
theorem login_unknown_email_and_wrong_password_same_error (bc : BcryptLib)
    (s : Settings) (now : Nat) (db : List User) (e p : String) :
    (find_user_by_email db e = none →
      login bc s now db e p = LoginResult.httpError 401 "Invalid email or password") ∧
    (∀ u, find_user_by_email db e = some u →
      verify_password bc p u.password_hash = false →
      login bc s now db e p = LoginResult.httpError 401 "Invalid email or password") := by
  constructor
  · intro h
    simp [login, h]
  · intro u hu hv
    simp [login, hu, hv]

/-- C5: `verify_password` answers `true` exactly when the underlying
`bcrypt.checkpw` call returns `True`; in every other case, a clean `False`
from the library or any raised exception (malformed hash included), it
answers `false` and never propagates the exception. -/
theorem verify_password_true_iff_checkpw_ok (bc : BcryptLib)
    (password password_hash : String) :
    verify_password bc password password_hash = true ↔
      bc.checkpw password password_hash = .ok true := by
  unfold verify_password
  rcases hc : bc.checkpw password password_hash with e | b
  · simp
  · cases b <;> simp

/-- C6: when a partial update commits, exactly the supplied fields change:
`id`, `user_id`, `completed` and `created_at` always keep their prior
values, an unset `title` or `description` keeps its prior value, a supplied
one takes the supplied value, `updated_at` becomes the mutation time and so
strictly increases whenever the clock moved past the previous value. -/
theorem update_task_changes_only_supplied_fields (t : Task) (b : TaskUpdate)
    (now : Nat) (t' : Task) (happly : applyTaskUpdate t b now = some t') :
    t'.id = t.id ∧ t'.user_id = t.user_id ∧ t'.completed = t.completed ∧
    t'.created_at = t.created_at ∧
    (b.title = none → t'.title = t.title) ∧
    (b.description = none → t'.description = t.description) ∧
    (∀ st, b.title = some (some st) → t'.title = st) ∧
    (∀ d, b.description = some d → t'.description = d) ∧
    t'.updated_at = now ∧
    (t.updated_at < now → t.updated_at < t'.updated_at) := by
  rcases hb : b.title with _ | v <;>
    simp only [applyTaskUpdate, hb] at happly
  · cases happly
    rcases hd : b.description with _ | d <;> simp [hd]
  · rcases v with _ | st
    · cases happly
    · cases happly
      rcases hd : b.description with _ | d <;> simp [hd]

/-- C7: the toggle operation on a row found by the compound-key lookup flips
`completed` and changes no field other than `updated_at`; a second toggle
restores the original `completed` value, and the handler answers the toggled
row. -/
theorem toggle_flips_and_twice_restores (t : Task) (n1 n2 : Nat)
    (db : List Task) (u tid : Nat) :
    (toggleTask t n1).completed = !t.completed ∧
    (toggleTask (toggleTask t n1) n2).completed = t.completed ∧
    (toggleTask t n1).id = t.id ∧ (toggleTask t n1).user_id = t.user_id ∧
    (toggleTask t n1).title = t.title ∧
    (toggleTask t n1).description = t.description ∧
    (toggleTask t n1).created_at = t.created_at ∧
    (toggleTask t n1).updated_at = n1 ∧
    (find_task db tid u = some t →
      (toggle_task_completion db u tid n1).1 = ApiResult.ok (toggleTask t n1)) := by
  refine ⟨by simp [toggleTask], by simp [toggleTask], by simp [toggleTask],
    by simp [toggleTask], by simp [toggleTask], by simp [toggleTask],
    by simp [toggleTask], by simp [toggleTask], ?_⟩
  intro hft
  simp [toggle_task_completion, hft]

/-- C10: a PATCH body, whatever JSON keys it carries, parses to an update
that leaves `completed` untouched on the row the handler returns, because
the update schema only reads `title` and `description`; the toggle operation
is the one that flips `completed`. -/
theorem update_task_never_changes_completed (body : JsonBody) (b : TaskUpdate)
    (db : List Task) (u tid now : Nat) (t' : Task)
    (_hparse : parseTaskUpdate body = .ok b)
    (hok : (update_task db u tid b now).1 = ApiResult.ok t') :
    (∃ t, find_task db tid u = some t ∧ t'.completed = t.completed) ∧
    (∀ (x : Task) (m : Nat), (toggleTask x m).completed = !x.completed) := by
  refine ⟨?_, fun x m => by simp [toggleTask]⟩
  rcases hft : find_task db tid u with _ | t
  · simp [update_task, hft] at hok
  · rcases happ : applyTaskUpdate t b now with _ | t'' <;>
      simp [update_task, hft, happ] at hok
    subst hok
    exact ⟨t, rfl, (applyTaskUpdate_frame t b now t'' happ).2.2.1⟩

set_option maxRecDepth 4000 in
/-- C8 counterexample: on a 201-character title that trims to one character,
both schemas reject although the trimmed length lies in 1 to 200 — the
length bound is checked before trimming, so acceptance is not equivalent to
"1 to 200 characters after trimming". -/
theorem title_trim_rule_counterexample :
    ¬(createTitleAccepted wLongTitle = true ↔
        1 ≤ (pyStrip wLongTitle).length ∧ (pyStrip wLongTitle).length ≤ 200) ∧
    createTitleAccepted wLongTitle = false ∧
    updateTitleAccepted wLongTitle = false ∧
    pyStrip wLongTitle = "a" := by
  refine ⟨?_, ?_, ?_, ?_⟩ <;> decide

/-- C8 (amended): a submitted title is accepted, by the create schema and by
the update schema alike, exactly when it has at most 200 characters before
trimming and at least one character after trimming; in particular an empty
or whitespace-only title is always rejected. -/
theorem title_accepted_iff (t : String) :
    (createTitleAccepted t = true ↔ t.length ≤ 200 ∧ 1 ≤ (pyStrip t).length) ∧
    (updateTitleAccepted t = true ↔ t.length ≤ 200 ∧ 1 ≤ (pyStrip t).length) := by
  refine ⟨title_accepted_iff_aux t, ?_⟩
  rw [updateTitleAccepted_eq_create]
  exact title_accepted_iff_aux t

/-- C9 counterexample: the code regex accepts `a@b.||` (its TLD class
`[A-Z|a-z]` contains the literal bar) and `abc` followed by a newline as a
username (`$` matches before a trailing newline), while the specification
regexes `[A-Za-z]{2,}` and a full-string `[A-Za-z0-9_]{3,30}` reject both. -/
theorem email_username_regex_counterexample :
    validate_email "a@b.||" = true ∧ ¬ SpecEmailMatches "a@b.||" ∧
    validate_username "abc\n" = true ∧ ¬ SpecUsernameMatches "abc\n" := by
  refine ⟨by decide, ?_, by decide, ?_⟩
  · rw [SpecEmailMatches, ← emailCoreMatch_iff]
    decide
  · unfold SpecUsernameMatches
    decide

/-- C9 (amended): `validate_email` accepts exactly the strings that, after
optionally removing one trailing newline, decompose as `local+ @ domain+ .`
followed by at least two characters of the class `[A-Z|a-z]` (letters or the
literal bar); `validate_username` accepts exactly 3 to 30 word characters,
again up to one trailing newline. -/
theorem validate_email_username_iff (e u : String) :
    (validate_email e = true ↔
      (EmailCoreMatches emailTldChar e.toList ∨
        (e.toList.getLast? = some '\n' ∧
          EmailCoreMatches emailTldChar e.toList.dropLast))) ∧
    (validate_username u = true ↔
      ((3 ≤ u.toList.length ∧ u.toList.length ≤ 30 ∧
          ∀ c ∈ u.toList, (c.isAlphanum || c = '_') = true) ∨
        (u.toList.getLast? = some '\n' ∧ 3 ≤ u.toList.dropLast.length ∧
          u.toList.dropLast.length ≤ 30 ∧
          ∀ c ∈ u.toList.dropLast, (c.isAlphanum || c = '_') = true))) := by
  constructor
  · unfold validate_email
    rw [pyRegexMatch_iff]
    simp only [emailCoreMatch_iff]
  · unfold validate_username
    rw [pyRegexMatch_iff]
    simp only [usernameCoreMatch_iff]

/-- Witness for C3: the login error value at an unknown email and the one at
a wrong password for a registered email are the same 401 response. -/
theorem login_same_error_witness :
    (find_user_by_email [] "ghost@example.com" = none ∧
      login wBcrypt wSettings 0 [] "ghost@example.com" "pw" =
        LoginResult.httpError 401 "Invalid email or password") ∧
    (find_user_by_email [wUser] "Alice@Example.com" = some wUser ∧
      verify_password wBcrypt "wrong" wUser.password_hash = false ∧
      login wBcrypt wSettings 0 [wUser] "Alice@Example.com" "wrong" =
        LoginResult.httpError 401 "Invalid email or password") :=
  ⟨⟨rfl,
      (login_unknown_email_and_wrong_password_same_error wBcrypt wSettings 0 []
        "ghost@example.com" "pw").1 rfl⟩,
    ⟨rfl, rfl,
      (login_unknown_email_and_wrong_password_same_error wBcrypt wSettings 0 [wUser]
        "Alice@Example.com" "wrong").2 wUser rfl rfl⟩⟩

/-- Witness for C6: a concrete title-only update keeps every other field and
refreshes `updated_at` from 10 to 20. -/
theorem update_changes_only_supplied_fields_witness :
    applyTaskUpdate wTask wBody 20 = some wTaskUpdated ∧
    wTaskUpdated.completed = wTask.completed ∧
    wTaskUpdated.description = wTask.description ∧
    wTaskUpdated.created_at = wTask.created_at ∧
    wTaskUpdated.title = "Buy bread" ∧
    wTask.updated_at < wTaskUpdated.updated_at :=
  ⟨rfl,
    (update_task_changes_only_supplied_fields wTask wBody 20 wTaskUpdated rfl).2.2.1,
    (update_task_changes_only_supplied_fields wTask wBody 20 wTaskUpdated rfl).2.2.2.2.2.1
      rfl,
    (update_task_changes_only_supplied_fields wTask wBody 20 wTaskUpdated rfl).2.2.2.1,
    (update_task_changes_only_supplied_fields wTask wBody 20 wTaskUpdated
      rfl).2.2.2.2.2.2.1 "Buy bread" rfl,
    (update_task_changes_only_supplied_fields wTask wBody 20 wTaskUpdated
      rfl).2.2.2.2.2.2.2.2.2 (by decide)⟩

/-- Witness for C7: toggling the concrete row through the handler flips its
completion flag. -/
theorem toggle_flips_witness :
    find_task [wTask] 1 7 = some wTask ∧
    (toggle_task_completion [wTask] 7 1 20).1 = ApiResult.ok (toggleTask wTask 20) ∧
    (toggleTask wTask 20).completed = !wTask.completed ∧
    (toggleTask (toggleTask wTask 20) 21).completed = wTask.completed :=
  ⟨rfl,
    (toggle_flips_and_twice_restores wTask 20 21 [wTask] 7 1).2.2.2.2.2.2.2.2 rfl,
    (toggle_flips_and_twice_restores wTask 20 21 [wTask] 7 1).1,
    (toggle_flips_and_twice_restores wTask 20 21 [wTask] 7 1).2.1⟩

/-- Witness for C10: a body that explicitly carries `completed: true` parses
to an update that leaves the stored completion flag untouched. -/
theorem update_never_changes_completed_witness :
    parseTaskUpdate wJson = .ok wBody ∧
    (update_task [wTask] 7 1 wBody 20).1 = ApiResult.ok wTaskUpdated ∧
    (∃ t, find_task [wTask] 1 7 = some t ∧ wTaskUpdated.completed = t.completed) :=
  ⟨rfl, rfl,
    (update_task_never_changes_completed wJson wBody [wTask] 7 1 20 wTaskUpdated
      rfl rfl).1⟩

end TodoApi
